import Mathlib

/-!
Shallow embedding of the permguard-trustplane sources (Rust) in Lean 4.

Conventions used throughout the embedding:
* Rust `String::is_empty()` / `Vec::is_empty()` are embedded as equality with
  `""` / `[]`.
* Byte slices (`Vec<u8>`, `&[u8]`) are embedded as `List Nat` (each entry a
  byte value).
* `HashMap<String, V>` is embedded as an association list with unique keys;
  insertion replaces an existing binding in place or appends a new one.
* A method taking `&self` with interior mutability is embedded as a function
  from the state to a (result, new state) pair.
* `tonic::Status` (a transport-level gRPC error) is embedded as `GrpcStatus`;
  a handler returning `Result<Response<T>, Status>` is embedded as
  `Except GrpcStatus T`.
-/

namespace TrustPlane

/-- Error type from src/error.rs (the `Io` variant carries only the message
text of the underlying error in this embedding). -/
inductive Error where
  | Config (msg : String)
  | NotFound (id : String)
  | Invalid (msg : String)
  | Crypto (msg : String)
  | IoError (msg : String)
  | Transport (msg : String)
  | Internal (msg : String)
deriving DecidableEq, Repr

/-- Transport-level gRPC error status (`tonic::Status`). -/
structure GrpcStatus where
  code : String
  message : String
deriving DecidableEq, Repr

/-- Claim-to-PCA-field mapping configuration (`MappingConfig`, src/bridge.rs).
The `custom` HashMap is embedded as an association list. -/
structure MappingConfig where
  subject_claim : String
  organization_claim : String
  custom : List (String × String)
deriving DecidableEq, Repr

/-- JWT bridge configuration (`JwtBridgeConfig`, src/bridge.rs). -/
structure JwtBridgeConfig where
  wellknown_url : String
  issuer : String
  audiences : List String
  mapping : MappingConfig
deriving DecidableEq, Repr

/-- Supported bridge types (`BridgeType`, src/bridge.rs). -/
inductive BridgeType where
  | Jwt
deriving DecidableEq, Repr

/-- Type-specific bridge configuration (`BridgeTypeConfig`, src/bridge.rs). -/
inductive BridgeTypeConfig where
  | Jwt (config : JwtBridgeConfig)
deriving DecidableEq, Repr

/-- Bridge configuration (`BridgeConfig`, src/bridge.rs). -/
structure BridgeConfig where
  id : String
  bridge_type : BridgeType
  enabled : Bool
  config : BridgeTypeConfig
deriving DecidableEq, Repr

/-- Association-list embedding of `HashMap<String, BridgeConfig>`. -/
abbrev BridgeMap := List (String × BridgeConfig)

/-- Lookup in the map (`HashMap::get`). -/
def mapGet : BridgeMap → String → Option BridgeConfig
  | [], _ => none
  | (k', v) :: rest, k => if k' = k then some v else mapGet rest k

/-- Key membership in the map (`HashMap::contains_key`). -/
def mapContains : BridgeMap → String → Bool
  | [], _ => false
  | (k', _) :: rest, k => k' = k || mapContains rest k

/-- Insertion (`HashMap::insert`): replaces an existing binding for the key,
otherwise appends a new binding. -/
def mapInsert : BridgeMap → String → BridgeConfig → BridgeMap
  | [], k, v => [(k, v)]
  | (k', v') :: rest, k, v =>
    if k' = k then (k, v) :: rest else (k', v') :: mapInsert rest k v

/-- Removal (`HashMap::remove`): drops every binding for the key (at most one
under the unique-keys invariant). -/
def mapRemove : BridgeMap → String → BridgeMap
  | [], _ => []
  | (k', v') :: rest, k =>
    if k' = k then mapRemove rest k else (k', v') :: mapRemove rest k

/-- Keys of the map. -/
def mapKeys (m : BridgeMap) : List String := m.map Prod.fst

/-- Unique-keys invariant of the HashMap embedding. -/
def mapWf (m : BridgeMap) : Prop := (mapKeys m).Nodup

/-- Registry for bridge configurations (`BridgeRegistry`, src/bridge.rs).
The `RwLock<HashMap<..>>` is embedded as the map itself; each mutating
operation returns the new registry state. -/
structure BridgeRegistry where
  bridges : BridgeMap
deriving DecidableEq, Repr

/-- Create new empty registry (`BridgeRegistry::new`). -/
def BridgeRegistry.new : BridgeRegistry := ⟨[]⟩

/-- List all bridge configurations (`BridgeRegistry::list`). -/
def BridgeRegistry.list (r : BridgeRegistry) : List BridgeConfig :=
  r.bridges.map Prod.snd

/-- Get a bridge configuration by ID (`BridgeRegistry::get`). -/
def BridgeRegistry.get (r : BridgeRegistry) (id : String) : Option BridgeConfig :=
  mapGet r.bridges id

/-- Add a new bridge configuration (`BridgeRegistry::add`). The source draws
the fresh id from `uuid::Uuid::new_v4().to_string()` (the uuid crate, an
external dependency, always yields a 36-character hyphenated string); that
generated string is passed here as the `freshUuid` argument. -/
def BridgeRegistry.add (r : BridgeRegistry) (freshUuid : String) (config : BridgeConfig) :
    Except Error String × BridgeRegistry :=
  let config := if config.id = "" then { config with id := freshUuid } else config
  (Except.ok config.id, ⟨mapInsert r.bridges config.id config⟩)

/-- Update an existing bridge configuration (`BridgeRegistry::update`). -/
def BridgeRegistry.update (r : BridgeRegistry) (config : BridgeConfig) :
    Except Error Unit × BridgeRegistry :=
  if mapContains r.bridges config.id then
    (Except.ok (), ⟨mapInsert r.bridges config.id config⟩)
  else
    (Except.error (Error.NotFound config.id), r)

/-- Remove a bridge configuration (`BridgeRegistry::remove`). -/
def BridgeRegistry.remove (r : BridgeRegistry) (id : String) :
    Except Error Unit × BridgeRegistry :=
  if mapContains r.bridges id then
    (Except.ok (), ⟨mapRemove r.bridges id⟩)
  else
    (Except.error (Error.NotFound id), r)

/-- Get enabled bridge by ID (`BridgeRegistry::get_enabled`):
`self.get(id).filter(|b| b.enabled)`. -/
def BridgeRegistry.get_enabled (r : BridgeRegistry) (id : String) : Option BridgeConfig :=
  match r.get id with
  | some b => if b.enabled then some b else none
  | none => none

/-- gRPC `TransitionRequest` (proto/cat.proto): a single bytes field. -/
structure TransitionRequest where
  pca : List Nat
deriving DecidableEq, Repr

/-- gRPC `TransitionResponse` (proto/cat.proto). -/
structure TransitionResponse where
  pca : List Nat
  error : String
deriving DecidableEq, Repr

/-- CAT transition gRPC handler (`CatServiceImpl::transition`, src/cat.rs).
The handler reads `self.credentials.current()` without using it, logs a
warning, and is otherwise a pure function of the request; both branches
return an in-band `Ok(Response)` value, never an `Err(Status)`. -/
def CatServiceImpl.transition (req : TransitionRequest) :
    Except GrpcStatus TransitionResponse :=
  if req.pca = [] then
    Except.ok { pca := [], error := "PCA is required" }
  else
    Except.ok { pca := [], error := "Not implemented" }

/-- gRPC `ExchangeRequest` (proto/bridge.proto). -/
structure ExchangeRequest where
  bridge_id : String
  credential : List Nat
deriving DecidableEq, Repr

/-- gRPC `ExchangeResponse` (proto/bridge.proto). -/
structure ExchangeResponse where
  pca : List Nat
  error : String
deriving DecidableEq, Repr

/-- One step of UTF-8 validation: `pending` is the number of continuation
bytes still expected, and `lo`/`hi` bound the next byte when `pending > 0`. -/
def utf8Run : List Nat → Nat → Nat → Nat → Bool
  | [], pending, _, _ => pending = 0
  | b :: rest, 0, _, _ =>
    if b ≤ 0x7F then utf8Run rest 0 0 0
    else if 0xC2 ≤ b && b ≤ 0xDF then utf8Run rest 1 0x80 0xBF
    else if b = 0xE0 then utf8Run rest 2 0xA0 0xBF
    else if (0xE1 ≤ b && b ≤ 0xEC) || b = 0xEE || b = 0xEF then utf8Run rest 2 0x80 0xBF
    else if b = 0xED then utf8Run rest 2 0x80 0x9F
    else if b = 0xF0 then utf8Run rest 3 0x90 0xBF
    else if 0xF1 ≤ b && b ≤ 0xF3 then utf8Run rest 3 0x80 0xBF
    else if b = 0xF4 then utf8Run rest 3 0x80 0x8F
    else false
  | b :: rest, p + 1, lo, hi =>
    if lo ≤ b && b ≤ hi then utf8Run rest p 0x80 0xBF else false

/-- Validity of a byte sequence as UTF-8 (the check performed by
`std::str::from_utf8`). -/
def utf8Valid (bytes : List Nat) : Bool := utf8Run bytes 0 0 0

/-- JWT exchange stub (`BridgeServiceImpl::exchange_jwt`, src/bridge.rs): it
only checks that the credential is valid UTF-8 and then reports that the
bridge is not implemented; it never produces a PCA. -/
def BridgeServiceImpl.exchange_jwt (credential : List Nat) (_config : JwtBridgeConfig) :
    Except String (List Nat) :=
  if utf8Valid credential then
    Except.error "JWT bridge not fully implemented"
  else
    Except.error "Invalid UTF-8 in credential"

/-- Bridge exchange gRPC handler (`BridgeServiceImpl::exchange`, src/bridge.rs). -/
def BridgeServiceImpl.exchange (registry : BridgeRegistry) (req : ExchangeRequest) :
    Except GrpcStatus ExchangeResponse :=
  if req.bridge_id = "" then
    Except.ok { pca := [], error := "bridge_id is required" }
  else if req.credential = [] then
    Except.ok { pca := [], error := "credential is required" }
  else
    match registry.get_enabled req.bridge_id with
    | none =>
      Except.ok { pca := [], error := "Bridge not found or disabled: " ++ req.bridge_id }
    | some bridge =>
      match bridge.config with
      | BridgeTypeConfig.Jwt jwt_config =>
        match BridgeServiceImpl.exchange_jwt req.credential jwt_config with
        | Except.ok pca => Except.ok { pca := pca, error := "" }
        | Except.error e => Except.ok { pca := [], error := e }

/-- HTTP status codes used by the handlers in src/handlers.rs. -/
inductive StatusCode where
  | ok
  | badRequest
  | notFound
  | notImplemented
deriving DecidableEq, Repr

/-- HTTP `POST /v1/bridge/exchange` request body (src/handlers.rs);
`credential` is a base64 string here. -/
structure HttpBridgeExchangeRequest where
  bridge_id : String
  credential : String
deriving DecidableEq, Repr

/-- HTTP `POST /v1/bridge/exchange` response body (src/handlers.rs). -/
structure HttpBridgeExchangeResponse where
  pca : String
  error : String
deriving DecidableEq, Repr

/-- HTTP bridge exchange handler (`bridge_exchange`, src/handlers.rs). -/
def bridge_exchange (registry : BridgeRegistry) (req : HttpBridgeExchangeRequest) :
    StatusCode × HttpBridgeExchangeResponse :=
  if req.bridge_id = "" then
    (StatusCode.badRequest, { pca := "", error := "bridge_id is required" })
  else if req.credential = "" then
    (StatusCode.badRequest, { pca := "", error := "credential is required" })
  else
    match registry.get_enabled req.bridge_id with
    | some _bridge =>
      (StatusCode.notImplemented, { pca := "", error := "Not implemented" })
    | none =>
      (StatusCode.notFound,
       { pca := "", error := "Bridge not found or disabled: " ++ req.bridge_id })

/-- Minimal model of `serde_json::Value` (only the shapes the sources build). -/
inductive Json where
  | str (s : String)
  | obj (fields : List (String × Json))

/-- Base64url alphabet used by `base64::engine::general_purpose::URL_SAFE_NO_PAD`. -/
def base64UrlAlphabet : List Char :=
  "ABCDEFGHIJKLMNOPQRSTUVWXYZabcdefghijklmnopqrstuvwxyz0123456789-_".toList

/-- The base64url character for a 6-bit value. -/
def b64Char (n : Nat) : Char := base64UrlAlphabet.getD n 'A'

/-- Unpadded base64url encoding of a byte list (the base64 crate's
URL_SAFE_NO_PAD engine). -/
def base64UrlNoPad : List Nat → List Char
  | [] => []
  | [a] => [b64Char (a / 4), b64Char (a % 4 * 16)]
  | [a, b] => [b64Char (a / 4), b64Char (a % 4 * 16 + b / 16), b64Char (b % 16 * 4)]
  | a :: b :: c :: rest =>
    b64Char (a / 4) :: b64Char (a % 4 * 16 + b / 16) ::
    b64Char (b % 16 * 4 + c / 64) :: b64Char (c % 64) :: base64UrlNoPad rest

/-- Ed25519 key pair (`KeyPair`, src/credentials/keys.rs). The dalek
`SigningKey` and `VerifyingKey` are embedded as their 32-byte arrays. -/
structure KeyPair where
  kid : String
  signing_key : List Nat
  verifying_key : List Nat
deriving DecidableEq, Repr

/-- Export public key as JWK (`KeyPair::public_jwk`, src/credentials/keys.rs). -/
def KeyPair.public_jwk (k : KeyPair) : Json :=
  Json.obj [
    ("kty", Json.str "OKP"),
    ("crv", Json.str "Ed25519"),
    ("x", Json.str (String.mk (base64UrlNoPad k.verifying_key))),
    ("kid", Json.str k.kid)]

/-- Verification method entry (`VerificationMethod`, src/credentials/did.rs). -/
structure VerificationMethod where
  id : String
  method_type : String
  controller : String
  public_key_jwk : Json

/-- DID document (`DidDocument`, src/credentials/did.rs). -/
structure DidDocument where
  context : List String
  id : String
  verification_method : List VerificationMethod
  assertion_method : List String
  authentication : List String

/-- Build the DID document for the Trust Plane from the issuer and CAT keys
(`DidDocument::new`, src/credentials/did.rs). -/
def DidDocument.new (did : String) (issuer_key : KeyPair) (cat_key : KeyPair) : DidDocument :=
  let issuer_method : VerificationMethod := {
    id := issuer_key.kid
    method_type := "Ed25519VerificationKey2020"
    controller := did
    public_key_jwk := issuer_key.public_jwk }
  let cat_method : VerificationMethod := {
    id := cat_key.kid
    method_type := "Ed25519VerificationKey2020"
    controller := did
    public_key_jwk := cat_key.public_jwk }
  { context := ["https://www.w3.org/ns/did/v1",
                "https://w3id.org/security/suites/ed25519-2020/v1"]
    id := did
    verification_method := [issuer_method, cat_method]
    assertion_method := [issuer_key.kid, cat_key.kid]
    authentication := [issuer_key.kid, cat_key.kid] }

/-- Trust Plane credentials aggregate (`TrustPlaneCredentials`, src/credentials.rs). -/
structure TrustPlaneCredentials where
  did : String
  organization : String
  issuer_key : KeyPair
  cat_key : KeyPair
  did_document : DidDocument
  credential : Json

/-- Heap-indexed model of `CredentialsManager` (src/credentials.rs). The tokio
watch channel holds an `Arc<TrustPlaneCredentials>`; `update` sends a freshly
allocated Arc and previously handed-out Arcs stay alive and immutable for as
long as their holders keep them. `store` models every snapshot cell ever
published (cells are never mutated, so the list only grows), `cur` is the
index of the cell currently in the watch slot, and a snapshot handle held by a
consumer is an index into `store`. -/
structure CredentialsManager where
  store : List TrustPlaneCredentials
  cur : Nat

/-- Create new manager with initial credentials (`CredentialsManager::new`). -/
def CredentialsManager.new (credentials : TrustPlaneCredentials) : CredentialsManager :=
  { store := [credentials], cur := 0 }

/-- Dereference a snapshot handle: read the cell a consumer's Arc points to. -/
def CredentialsManager.readSnap (m : CredentialsManager) (i : Nat) :
    Option TrustPlaneCredentials :=
  m.store[i]?

/-- Get current credentials (`CredentialsManager::current`):
`self.receiver.borrow().clone()` reads the cell in the watch slot. -/
def CredentialsManager.current (m : CredentialsManager) : Option TrustPlaneCredentials :=
  m.store[m.cur]?

/-- Update credentials (`CredentialsManager::update`): publishes a freshly
allocated cell into the watch slot; no existing cell is touched. -/
def CredentialsManager.update (m : CredentialsManager) (credentials : TrustPlaneCredentials) :
    CredentialsManager :=
  { store := m.store ++ [credentials], cur := m.store.length }

/-- Well-formedness of a manager state: the watch slot points at an allocated
cell. It holds on construction and is preserved by `update`. -/
def CredentialsManager.Wf (m : CredentialsManager) : Prop :=
  m.cur < m.store.length

/-- Proto `MappingConfig` message (proto/bridge_admin.proto). -/
structure ProtoMappingConfig where
  subject_claim : String
  organization_claim : String
  custom : List (String × String)
deriving DecidableEq, Repr

/-- Prost's `Default` for the proto `MappingConfig`: empty strings, empty map. -/
def ProtoMappingConfig.defaultVal : ProtoMappingConfig :=
  { subject_claim := "", organization_claim := "", custom := [] }

/-- Proto `JwtBridgeConfig` message (proto/bridge_admin.proto); `mapping` is an
optional message field. -/
structure ProtoJwtBridgeConfig where
  wellknown_url : String
  issuer : String
  audiences : List String
  mapping : Option ProtoMappingConfig
deriving DecidableEq, Repr

/-- Proto `BridgeType` enum. `Unspecified` stands for every decodable value
other than `Jwt` (they all take the rejection branch in the conversion). -/
inductive ProtoBridgeType where
  | Unspecified
  | Jwt
deriving DecidableEq, Repr

/-- The `config` oneof of the proto `BridgeConfig` message, with its single
`Jwt` variant. -/
inductive ProtoBridgeConfigOneof where
  | Jwt (j : ProtoJwtBridgeConfig)
deriving DecidableEq, Repr

/-- Proto `BridgeConfig` message (proto/bridge_admin.proto). The `r#type`
field is embedded at the enum level; an i32 outside the enum range would be
rejected by `try_from` before the branch modelled here. -/
structure ProtoBridgeConfig where
  id : String
  type : ProtoBridgeType
  enabled : Bool
  config : Option ProtoBridgeConfigOneof
deriving DecidableEq, Repr

/-- Conversion from the proto message to the internal `BridgeConfig`
(`from_proto_bridge_config`, src/bridge_admin.rs). An absent mapping message
falls back to the prost default (`unwrap_or_default`), and empty
subject/organization claim names fall back to `"sub"` / `"org"`. -/
def from_proto_bridge_config (proto : ProtoBridgeConfig) :
    Except GrpcStatus BridgeConfig :=
  match proto.type with
  | ProtoBridgeType.Jwt =>
    match proto.config with
    | some (ProtoBridgeConfigOneof.Jwt jwt) =>
      let mapping := jwt.mapping.getD ProtoMappingConfig.defaultVal
      Except.ok {
        id := proto.id
        bridge_type := BridgeType.Jwt
        enabled := proto.enabled
        config := BridgeTypeConfig.Jwt {
          wellknown_url := jwt.wellknown_url
          issuer := jwt.issuer
          audiences := jwt.audiences
          mapping := {
            subject_claim :=
              if mapping.subject_claim = "" then "sub" else mapping.subject_claim
            organization_claim :=
              if mapping.organization_claim = "" then "org" else mapping.organization_claim
            custom := mapping.custom } } }
    | none =>
      Except.error { code := "invalid_argument", message := "JWT config required for JWT bridge" }
  | ProtoBridgeType.Unspecified =>
    Except.error { code := "invalid_argument", message := "Unsupported bridge type" }

/-- Sample mapping configuration (the Rust `MappingConfig::default()`). -/
def sampleMapping : MappingConfig :=
  { subject_claim := "", organization_claim := "", custom := [] }

/-- Sample JWT bridge configuration, mirroring the values used in the
registry tests in src/bridge.rs. -/
def sampleJwt : JwtBridgeConfig :=
  { wellknown_url := "https://auth.example.com/.well-known/openid-configuration"
    issuer := "https://auth.example.com"
    audiences := ["api"]
    mapping := sampleMapping }

/-- Sample bridge configuration submitted with an empty id. -/
def sampleConfigEmptyId : BridgeConfig :=
  { id := "", bridge_type := BridgeType.Jwt, enabled := true,
    config := BridgeTypeConfig.Jwt sampleJwt }

/-- A concrete value of the shape produced by `uuid::Uuid::new_v4().to_string()`. -/
def sampleUuid : String := "550e8400-e29b-41d4-a716-446655440000"

/-- Sample stored bridge configuration with id "b1", disabled. -/
def sampleConfigB1 : BridgeConfig :=
  { id := "b1", bridge_type := BridgeType.Jwt, enabled := false,
    config := BridgeTypeConfig.Jwt sampleJwt }

/-- The same bridge configuration with the enabled flag set. -/
def sampleConfigB1Enabled : BridgeConfig := { sampleConfigB1 with enabled := true }

/-- A bridge configuration whose id is absent from `sampleRegistry`. -/
def sampleConfigAbsent : BridgeConfig := { sampleConfigB1 with id := "zzz" }

/-- Sample registry holding the single (disabled) bridge "b1". -/
def sampleRegistry : BridgeRegistry := ⟨[("b1", sampleConfigB1)]⟩

/-- Sample issuer key (bytes are placeholders for dalek key material). -/
def sampleKey1 : KeyPair :=
  { kid := "did:web:tp.example#issuer-1"
    signing_key := List.replicate 32 1
    verifying_key := List.replicate 32 2 }

/-- Sample CAT key. -/
def sampleKey2 : KeyPair :=
  { kid := "did:web:tp.example#cat-1"
    signing_key := List.replicate 32 3
    verifying_key := List.replicate 32 4 }

/-- Variant of `sampleKey1` with a different private component but the same
kid and public component. -/
def sampleKey1Var : KeyPair := { sampleKey1 with signing_key := List.replicate 32 9 }

/-- Sample credentials aggregate. -/
def sampleCreds : TrustPlaneCredentials :=
  { did := "did:web:tp.example"
    organization := "ExampleOrg"
    issuer_key := sampleKey1
    cat_key := sampleKey2
    did_document := DidDocument.new "did:web:tp.example" sampleKey1 sampleKey2
    credential := Json.obj [] }

/-- Rotated credentials aggregate used to exercise `update`. -/
def sampleCreds2 : TrustPlaneCredentials := { sampleCreds with organization := "NewOrg" }

/-- Sample manager freshly constructed from `sampleCreds`. -/
def sampleManager : CredentialsManager := CredentialsManager.new sampleCreds

/-- Sample proto JWT bridge configuration whose mapping message is absent. -/
def sampleProtoJwt : ProtoJwtBridgeConfig :=
  { wellknown_url := "https://auth.example.com/.well-known/openid-configuration"
    issuer := "https://auth.example.com"
    audiences := ["api"]
    mapping := none }

/-- Sample proto bridge configuration of JWT type. -/
def sampleProto : ProtoBridgeConfig :=
  { id := "b1", type := ProtoBridgeType.Jwt, enabled := true,
    config := some (ProtoBridgeConfigOneof.Jwt sampleProtoJwt) }

/-- Lookup misses exactly when the key is not contained. -/
theorem mapGet_eq_none_iff (m : BridgeMap) (k : String) :
    mapGet m k = none ↔ mapContains m k = false := by
  induction m with
  | nil => simp [mapGet, mapContains]
  | cons p rest ih =>
    obtain ⟨k', v⟩ := p
    by_cases h : k' = k <;> simp [mapGet, mapContains, h, ih]

/-- Lookup after insertion at the same key returns the inserted value. -/
theorem mapGet_insert_self (m : BridgeMap) (k : String) (v : BridgeConfig) :
    mapGet (mapInsert m k v) k = some v := by
  induction m with
  | nil => simp [mapInsert, mapGet]
  | cons p rest ih =>
    obtain ⟨k', v'⟩ := p
    by_cases h : k' = k <;> simp [mapInsert, mapGet, h, ih]

/-- Lookup after removal at the same key misses. -/
theorem mapGet_remove_self (m : BridgeMap) (k : String) :
    mapGet (mapRemove m k) k = none := by
  induction m with
  | nil => simp [mapRemove, mapGet]
  | cons p rest ih =>
    obtain ⟨k', v'⟩ := p
    by_cases h : k' = k <;> simp [mapRemove, mapGet, h, ih]

/-- Unfolding of `mapKeys` on a cons cell. -/
theorem mapKeys_cons (k' : String) (v' : BridgeConfig) (rest : BridgeMap) :
    mapKeys ((k', v') :: rest) = k' :: mapKeys rest := rfl

/-- The keys of an insertion are among the old keys plus the inserted key. -/
theorem mem_mapKeys_insert (m : BridgeMap) (k : String) (v : BridgeConfig) (x : String)
    (hx : x ∈ mapKeys (mapInsert m k v)) : x ∈ mapKeys m ∨ x = k := by
  induction m with
  | nil =>
    simp only [mapInsert, mapKeys_cons, List.mem_cons] at hx
    rcases hx with h | h
    · exact Or.inr h
    · exact absurd h (by simp [mapKeys])
  | cons p rest ih =>
    obtain ⟨k', v'⟩ := p
    simp only [mapInsert] at hx
    by_cases h : k' = k
    · rw [if_pos h] at hx
      rw [mapKeys_cons, List.mem_cons] at hx
      rcases hx with h1 | h1
      · exact Or.inr h1
      · exact Or.inl (by rw [mapKeys_cons, List.mem_cons]; exact Or.inr h1)
    · rw [if_neg h] at hx
      rw [mapKeys_cons, List.mem_cons] at hx
      rcases hx with h1 | h1
      · exact Or.inl (by rw [mapKeys_cons, List.mem_cons]; exact Or.inl h1)
      · rcases ih h1 with h2 | h2
        · exact Or.inl (by rw [mapKeys_cons, List.mem_cons]; exact Or.inr h2)
        · exact Or.inr h2

/-- Insertion preserves the unique-keys invariant. -/
theorem mapWf_insert (m : BridgeMap) (k : String) (v : BridgeConfig)
    (hwf : mapWf m) : mapWf (mapInsert m k v) := by
  induction m with
  | nil => simp [mapWf, mapInsert, mapKeys]
  | cons p rest ih =>
    obtain ⟨k', v'⟩ := p
    simp only [mapWf, mapKeys_cons, List.nodup_cons] at hwf
    simp only [mapInsert]
    by_cases h : k' = k
    · subst h
      rw [if_pos rfl]
      simp only [mapWf, mapKeys_cons, List.nodup_cons]
      exact hwf
    · rw [if_neg h]
      simp only [mapWf, mapKeys_cons, List.nodup_cons]
      refine ⟨?_, ih hwf.2⟩
      intro hmem
      rcases mem_mapKeys_insert rest k v k' hmem with h1 | h1
      · exact hwf.1 h1
      · exact h h1

/-- The keys of a removal form a sublist of the old keys. -/
theorem mapKeys_remove_sublist (m : BridgeMap) (k : String) :
    (mapKeys (mapRemove m k)).Sublist (mapKeys m) := by
  induction m with
  | nil => simp [mapRemove, mapKeys]
  | cons p rest ih =>
    obtain ⟨k', v'⟩ := p
    simp only [mapRemove]
    by_cases h : k' = k
    · rw [if_pos h, mapKeys_cons]
      exact ih.trans (List.sublist_cons_self k' _)
    · rw [if_neg h, mapKeys_cons, mapKeys_cons]
      exact ih.cons₂ k'

/-- Removal preserves the unique-keys invariant. -/
theorem mapWf_remove (m : BridgeMap) (k : String) (hwf : mapWf m) :
    mapWf (mapRemove m k) :=
  List.Nodup.sublist (mapKeys_remove_sublist m k) hwf

/-- C1: the spec requires that transitioning a valid PCA with sequence n
yields a PCA with sequence n+1 whose previous-reference is the hash of the
input; the implemented handler (`CatServiceImpl::transition`) is a stub that
mints nothing. Evaluating it at a non-empty input shows the empty PCA and the
"Not implemented" error instead of a successor PCA. -/
theorem cat_transition_stub_never_mints :
    CatServiceImpl.transition { pca := [1] } =
      Except.ok { pca := [], error := "Not implemented" } := rfl

/-- C2: every gRPC CAT transition request receives an in-band response with an
empty pca field; an empty input yields the error "PCA is required" and every
non-empty input yields "Not implemented"; no input produces a transport-level
error status. -/
theorem cat_transition_always_stub (req : TransitionRequest) :
    ∃ resp, CatServiceImpl.transition req = Except.ok resp ∧ resp.pca = [] ∧
      resp.error = (if req.pca = [] then "PCA is required" else "Not implemented") := by
  by_cases h : req.pca = []
  · exact ⟨{ pca := [], error := "PCA is required" },
      by simp [CatServiceImpl.transition, h], rfl, by simp [h]⟩
  · exact ⟨{ pca := [], error := "Not implemented" },
      by simp [CatServiceImpl.transition, h], rfl, by simp [h]⟩

/-- C3: a CAT transition call with an empty PCA byte string returns exactly
the in-band response with empty pca and error "PCA is required", not a
transport failure. -/
theorem cat_transition_empty_input :
    CatServiceImpl.transition { pca := [] } =
      Except.ok { pca := [], error := "PCA is required" } := rfl

/-- C4 counterexample: for a config submitted with an empty id, `add`
followed by `get` with the returned id does not yield a config equal to the
input (the stored config carries the freshly assigned id). -/
theorem bridgeRegistry_add_get_counterexample :
    (BridgeRegistry.new.add sampleUuid sampleConfigEmptyId).1 = Except.ok sampleUuid ∧
    (BridgeRegistry.new.add sampleUuid sampleConfigEmptyId).2.get sampleUuid ≠
      some sampleConfigEmptyId := by
  constructor
  · rfl
  · decide

/-- C4 (amended): `add` then `get` with the returned id yields the input
config with its id replaced by the returned id (identical to the input when
the input id is non-empty); `update` with an absent id fails with `NotFound`
and leaves the registry unchanged; `remove` followed by `get` yields nothing;
the length of `list` equals the number of entries of the registry map, whose
keys stay unique under every operation. -/
theorem bridgeRegistry_crud_roundtrip (r : BridgeRegistry) (c : BridgeConfig) (u id : String) :
    ((r.add u c).1 = Except.ok (if c.id = "" then u else c.id) ∧
     (r.add u c).2.get (if c.id = "" then u else c.id) =
       some (if c.id = "" then { c with id := u } else c) ∧
     (c.id ≠ "" → (r.add u c).2.get c.id = some c)) ∧
    (r.get c.id = none → r.update c = (Except.error (Error.NotFound c.id), r)) ∧
    ((r.remove id).2.get id = none) ∧
    (r.list.length = r.bridges.length) ∧
    (mapWf r.bridges →
      mapWf ((r.add u c).2.bridges) ∧ mapWf ((r.update c).2.bridges) ∧
      mapWf ((r.remove id).2.bridges)) := by
  refine ⟨⟨?_, ?_, ?_⟩, ?_, ?_, ?_, ?_⟩
  · by_cases hc : c.id = "" <;> simp [BridgeRegistry.add, hc]
  · by_cases hc : c.id = "" <;>
      simp [BridgeRegistry.add, BridgeRegistry.get, hc, mapGet_insert_self]
  · intro hne
    simp [BridgeRegistry.add, BridgeRegistry.get, hne, mapGet_insert_self]
  · intro hnone
    have hcont : mapContains r.bridges c.id = false := (mapGet_eq_none_iff _ _).mp hnone
    simp [BridgeRegistry.update, hcont]
  · by_cases hcont : mapContains r.bridges id = true
    · simp [BridgeRegistry.remove, hcont, BridgeRegistry.get, mapGet_remove_self]
    · have hf : mapContains r.bridges id = false := by simpa using hcont
      have hg := (mapGet_eq_none_iff r.bridges id).mpr hf
      simp [BridgeRegistry.remove, hf, BridgeRegistry.get, hg]
  · simp [BridgeRegistry.list]
  · intro hwf
    refine ⟨?_, ?_, ?_⟩
    · by_cases hc : c.id = "" <;> simp [BridgeRegistry.add, hc] <;>
        exact mapWf_insert _ _ _ hwf
    · by_cases hcont : mapContains r.bridges c.id = true
      · simp only [BridgeRegistry.update, hcont, if_true]
        exact mapWf_insert _ _ _ hwf
      · have hf : mapContains r.bridges c.id = false := by simpa using hcont
        simpa [BridgeRegistry.update, hf] using hwf
    · by_cases hcont : mapContains r.bridges id = true
      · simp only [BridgeRegistry.remove, hcont, if_true]
        exact mapWf_remove _ _ hwf
      · have hf : mapContains r.bridges id = false := by simpa using hcont
        simpa [BridgeRegistry.remove, hf] using hwf

/-- C4 witness: the amended round-trip theorem applied at a concrete registry:
update of an absent id fails with NotFound, and remove followed by get yields
nothing. -/
theorem bridgeRegistry_crud_roundtrip_witness :
    sampleRegistry.update sampleConfigAbsent =
      (Except.error (Error.NotFound "zzz"), sampleRegistry) ∧
    (sampleRegistry.remove "b1").2.get "b1" = none := by
  constructor
  · exact (bridgeRegistry_crud_roundtrip sampleRegistry sampleConfigAbsent "u" "b1").2.1
      (by decide)
  · exact (bridgeRegistry_crud_roundtrip sampleRegistry sampleConfigAbsent "u" "b1").2.2.1

/-- C5: for a stored config with enabled=false, `get_enabled` returns nothing
while `get` still returns the config; `get_enabled` returns the config exactly
when the entry exists and is enabled. -/
theorem bridgeRegistry_enabled_gating (r : BridgeRegistry) (id : String) (c : BridgeConfig) :
    (r.get id = some c → c.enabled = false →
       r.get_enabled id = none ∧ r.get id = some c) ∧
    (r.get_enabled id = some c ↔ r.get id = some c ∧ c.enabled = true) := by
  constructor
  · intro hget hdis
    refine ⟨?_, hget⟩
    simp [BridgeRegistry.get_enabled, hget, hdis]
  · unfold BridgeRegistry.get_enabled
    cases hget : r.get id with
    | none => simp
    | some b =>
      by_cases hb : b.enabled = true
      · simp only [hb, if_true, Option.some.injEq]
        constructor
        · rintro rfl
          exact ⟨rfl, hb⟩
        · rintro ⟨h, _⟩
          simpa using h
      · have hb' : b.enabled = false := by simpa using hb
        simp only [hb', Bool.false_eq_true, if_false]
        constructor
        · intro h
          cases h
        · rintro ⟨h, hc⟩
          injection h with h
          subst h
          rw [hb'] at hc
          cases hc

/-- C5 witness: the gating theorem applied at the sample registry whose bridge
"b1" is stored with enabled=false. -/
theorem bridgeRegistry_enabled_gating_witness :
    sampleRegistry.get_enabled "b1" = none ∧
    sampleRegistry.get "b1" = some sampleConfigB1 :=
  (bridgeRegistry_enabled_gating sampleRegistry "b1" sampleConfigB1).1 rfl rfl

/-- C6: a config submitted with an empty id is stored under the generated
fresh id (non-empty and previously absent, as guaranteed by uuid v4
generation) and that id is returned; a config whose caller-supplied id already
exists silently overwrites the stored entry and succeeds. -/
theorem bridgeRegistry_add_id_handling
    (r : BridgeRegistry) (c c2 old : BridgeConfig) (u u2 : String)
    (hempty : c.id = "") (hu : u ≠ "") (hfresh : r.get u = none)
    (hdup : c2.id ≠ "") (_hold : r.get c2.id = some old) :
    ((r.add u c).1 = Except.ok u ∧ u ≠ "" ∧ r.get u = none ∧
     (r.add u c).2.get u = some { c with id := u }) ∧
    ((r.add u2 c2).1 = Except.ok c2.id ∧ (r.add u2 c2).2.get c2.id = some c2) := by
  refine ⟨⟨?_, hu, hfresh, ?_⟩, ?_, ?_⟩
  · simp [BridgeRegistry.add, hempty]
  · simp [BridgeRegistry.add, BridgeRegistry.get, hempty, mapGet_insert_self]
  · simp [BridgeRegistry.add, hdup]
  · simp [BridgeRegistry.add, BridgeRegistry.get, hdup, mapGet_insert_self]

/-- C6 witness: the id-handling theorem applied at the sample registry, with a
concrete uuid for the empty-id case and the existing id "b1" for the
overwrite case. -/
theorem bridgeRegistry_add_id_handling_witness :
    (sampleRegistry.add sampleUuid sampleConfigEmptyId).1 = Except.ok sampleUuid ∧
    (sampleRegistry.add "ignored" sampleConfigB1Enabled).2.get "b1" =
      some sampleConfigB1Enabled := by
  have h := bridgeRegistry_add_id_handling sampleRegistry sampleConfigEmptyId
    sampleConfigB1Enabled sampleConfigB1 sampleUuid "ignored"
    rfl (by decide) (by decide) (by decide) (by decide)
  exact ⟨h.1.1, h.2.2⟩

/-- C7: a snapshot obtained via `current()` before an `update` is unchanged
and fully readable after the update (update only publishes a fresh cell and
never touches existing ones), every `current()` call after the update returns
the new snapshot, and `current()` always succeeds on a well-formed manager,
which construction yields and `update` preserves. -/
theorem credentialsManager_snapshot_isolation
    (m : CredentialsManager) (c s : TrustPlaneCredentials)
    (_hwf : m.Wf) (hs : m.current = some s) :
    (m.update c).readSnap m.cur = some s ∧
    (∀ i x, m.readSnap i = some x → (m.update c).readSnap i = some x) ∧
    (m.update c).current = some c ∧
    (m.update c).Wf ∧
    (∀ cred, (CredentialsManager.new cred).Wf) ∧
    (∀ m2 : CredentialsManager, m2.Wf → m2.current.isSome) := by
  have hframe : ∀ i x, m.readSnap i = some x → (m.update c).readSnap i = some x := by
    intro i x hx
    simp only [CredentialsManager.readSnap] at hx
    have hi : i < m.store.length := by
      rcases Nat.lt_or_ge i m.store.length with h1 | h1
      · exact h1
      · rw [List.getElem?_eq_none h1] at hx
        cases hx
    simp only [CredentialsManager.readSnap, CredentialsManager.update]
    rw [List.getElem?_append_left hi]
    exact hx
  refine ⟨hframe m.cur s hs, hframe, ?_, ?_, ?_, ?_⟩
  · simp only [CredentialsManager.current, CredentialsManager.update]
    exact List.getElem?_concat_length m.store c
  · simp only [CredentialsManager.Wf, CredentialsManager.update, List.length_append,
      List.length_cons, List.length_nil]
    omega
  · intro cred
    simp [CredentialsManager.new, CredentialsManager.Wf]
  · intro m2 h2
    simp only [CredentialsManager.current]
    rw [List.getElem?_eq_getElem h2]
    rfl

/-- C7 witness: the isolation theorem applied at the sample manager: the
pre-update snapshot is still readable unchanged after the update and the
post-update current() yields the new credentials. -/
theorem credentialsManager_snapshot_isolation_witness :
    (sampleManager.update sampleCreds2).readSnap sampleManager.cur = some sampleCreds ∧
    (sampleManager.update sampleCreds2).current = some sampleCreds2 := by
  have h := credentialsManager_snapshot_isolation sampleManager sampleCreds2 sampleCreds
    (by simp [sampleManager, CredentialsManager.new, CredentialsManager.Wf]) rfl
  exact ⟨h.1, h.2.2.1⟩

/-- C8: for a non-empty bridge id and non-empty credential, if the enabled
lookup misses (absent or disabled bridge), both the gRPC exchange handler and
the HTTP exchange handler fail closed with a not-found error and an empty
PCA; in particular no PCA is minted. -/
theorem bridge_exchange_fails_closed
    (r : BridgeRegistry) (bid credB64 : String) (cred : List Nat)
    (h1 : bid ≠ "") (h2 : cred ≠ []) (h3 : credB64 ≠ "")
    (h4 : r.get_enabled bid = none) :
    BridgeServiceImpl.exchange r { bridge_id := bid, credential := cred } =
      Except.ok { pca := [], error := "Bridge not found or disabled: " ++ bid } ∧
    bridge_exchange r { bridge_id := bid, credential := credB64 } =
      (StatusCode.notFound,
       { pca := "", error := "Bridge not found or disabled: " ++ bid }) := by
  constructor
  · simp [BridgeServiceImpl.exchange, h1, h2, h4]
  · simp [bridge_exchange, h1, h3, h4]

/-- C8 witness: the fails-closed theorem applied at the sample registry whose
bridge "b1" exists but is disabled. -/
theorem bridge_exchange_fails_closed_witness :
    BridgeServiceImpl.exchange sampleRegistry { bridge_id := "b1", credential := [65] } =
      Except.ok { pca := [], error := "Bridge not found or disabled: " ++ "b1" } ∧
    bridge_exchange sampleRegistry { bridge_id := "b1", credential := "QQ==" } =
      (StatusCode.notFound,
       { pca := "", error := "Bridge not found or disabled: " ++ "b1" }) :=
  bridge_exchange_fails_closed sampleRegistry "b1" "QQ==" [65]
    (by decide) (by decide) (by decide) (by decide)

/-- C9: every verification-method id referenced in the assertion-method and
authentication lists of the built DID document exists as the id of an entry in
the verification-method sequence, and the construction depends only on the did
and the kid and public component of the two keys (it is unchanged when the
private components differ). -/
theorem didDocument_referential_invariant
    (did : String) (ik ck ik2 ck2 : KeyPair)
    (h1 : ik.kid = ik2.kid) (h2 : ik.verifying_key = ik2.verifying_key)
    (h3 : ck.kid = ck2.kid) (h4 : ck.verifying_key = ck2.verifying_key) :
    (∀ mid ∈ (DidDocument.new did ik ck).assertion_method,
       ∃ vm ∈ (DidDocument.new did ik ck).verification_method, vm.id = mid) ∧
    (∀ mid ∈ (DidDocument.new did ik ck).authentication,
       ∃ vm ∈ (DidDocument.new did ik ck).verification_method, vm.id = mid) ∧
    DidDocument.new did ik ck = DidDocument.new did ik2 ck2 := by
  have hrefs : ∀ mid ∈ [ik.kid, ck.kid],
      ∃ vm ∈ (DidDocument.new did ik ck).verification_method, vm.id = mid := by
    intro mid hmid
    rw [List.mem_cons, List.mem_cons] at hmid
    rcases hmid with rfl | rfl | h
    · exact ⟨_, List.mem_cons_self _ _, rfl⟩
    · exact ⟨_, List.mem_cons_of_mem _ (List.mem_cons_self _ _), rfl⟩
    · cases h
  refine ⟨hrefs, hrefs, ?_⟩
  simp only [DidDocument.new, KeyPair.public_jwk, h1, h2, h3, h4]

/-- C9 witness: the invariant theorem applied at concrete keys; replacing the
issuer key's private component leaves the built document unchanged. -/
theorem didDocument_referential_invariant_witness :
    DidDocument.new "did:web:tp.example" sampleKey1 sampleKey2 =
      DidDocument.new "did:web:tp.example" sampleKey1Var sampleKey2 :=
  (didDocument_referential_invariant "did:web:tp.example"
    sampleKey1 sampleKey2 sampleKey1Var sampleKey2 rfl rfl rfl rfl).2.2

/-- C10: for a JWT proto bridge config, when the mapping leaves the subject
claim (resp. organization claim) unspecified or empty, the stored effective
mapping uses "sub" (resp. "org"). -/
theorem from_proto_mapping_defaults
    (proto : ProtoBridgeConfig) (jwt : ProtoJwtBridgeConfig)
    (htype : proto.type = ProtoBridgeType.Jwt)
    (hcfg : proto.config = some (ProtoBridgeConfigOneof.Jwt jwt)) :
    ∃ bc j, from_proto_bridge_config proto = Except.ok bc ∧
      bc.config = BridgeTypeConfig.Jwt j ∧
      ((jwt.mapping.getD ProtoMappingConfig.defaultVal).subject_claim = "" →
        j.mapping.subject_claim = "sub") ∧
      ((jwt.mapping.getD ProtoMappingConfig.defaultVal).organization_claim = "" →
        j.mapping.organization_claim = "org") := by
  simp only [from_proto_bridge_config, htype, hcfg]
  refine ⟨_, _, rfl, rfl, ?_, ?_⟩
  · intro h
    simp [h]
  · intro h
    simp [h]

/-- C10 witness: the defaults theorem applied at a concrete proto config whose
mapping message is absent, so both claims fall back to "sub" and "org". -/
theorem from_proto_mapping_defaults_witness :
    ∃ bc j, from_proto_bridge_config sampleProto = Except.ok bc ∧
      bc.config = BridgeTypeConfig.Jwt j ∧
      ((sampleProtoJwt.mapping.getD ProtoMappingConfig.defaultVal).subject_claim = "" →
        j.mapping.subject_claim = "sub") ∧
      ((sampleProtoJwt.mapping.getD ProtoMappingConfig.defaultVal).organization_claim = "" →
        j.mapping.organization_claim = "org") :=
  from_proto_mapping_defaults sampleProto sampleProtoJwt rfl rfl

end TrustPlane
